import Mathlib

/-!
Verification of `client/repl/player_management.go` (alda).

Shallow embedding: the mutable `Server` state, the `managePlayers` loop
body (one "tick", split into its four steps in source order), the slot
accessors, `withEmitter` and `shutdownPlayer` are translated into pure
Lean functions.  External calls (`system.FillPlayerPool`,
`system.FindPlayerByID`, `system.FindAvailablePlayer`,
`emitter.EmitPingMessage`, `emitter.EmitShutdownMessage`) are
parameters: a tick receives the outcome each such call would produce,
and `withEmitter` receives the slot contents each retry attempt would
observe.  Go `error` results are modelled as `Except String`, carrying
the error message.  Time is modelled in milliseconds as `Int`
(Go `time.Time` / `time.Duration`, with `now.Sub(t) > d` becoming
`now - t > d`).
-/

namespace PlayerManagement

/-- Timing constants from the source, in milliseconds.
`findPlayerTimeout = 20 * time.Second`. -/
def findPlayerTimeout : Int := 20000

/-- `playerPoolFillInterval = 15 * time.Second`. -/
def playerPoolFillInterval : Int := 15000

/-- `pingTimeout = 5 * time.Second`. -/
def pingTimeout : Int := 5000

/-- `pingInterval = 1 * time.Second`. -/
def pingInterval : Int := 1000

/-- `failedPingThreshold = 3`, declared in the source. -/
def failedPingThreshold : Nat := 3

/-- The fields of `system.PlayerState` that `player_management.go`
reads or writes: the stable identifier `ID` and the network endpoint
`Port`.  The zero value (`ID=""`, `Port=0`) is the "empty" descriptor. -/
structure PlayerState where
  ID : String
  Port : Nat
  deriving Repr, DecidableEq

/-- The zero value `system.PlayerState{}`. -/
def PlayerState.empty : PlayerState := ⟨"", 0⟩

/-- `emitter.OSCEmitter`: the message-channel handle, holding the
target port (the only field this file sets). -/
structure OSCEmitter where
  Port : Nat
  deriving Repr, DecidableEq

/-- The part of `Server` that `player_management.go` touches: the
single mutable active-player slot `server.player`. -/
structure Server where
  player : PlayerState
  deriving Repr, DecidableEq

/-- `func (server *Server) hasPlayer() bool { return server.player.Port != 0 }` -/
def Server.hasPlayer (server : Server) : Bool :=
  server.player.Port != 0

/-- `func (server *Server) unsetPlayer() { server.player = system.PlayerState{} }` -/
def Server.unsetPlayer (server : Server) : Server :=
  { server with player := PlayerState.empty }

/-- `func (server *Server) emitter() (emitter.OSCEmitter, error)`:
fails with "no player process is available" when there is no player,
otherwise returns an emitter bound to the player's port. -/
def Server.emitter (server : Server) : Except String OSCEmitter :=
  if !server.hasPlayer then
    Except.error "no player process is available"
  else
    Except.ok ⟨server.player.Port⟩

/-- `strings.HasPrefix(s, pre)`: whether `s` begins with `pre`.
Stated over the character lists so the kernel can evaluate it on
literals. -/
def hasPrefixStr (s pre : String) : Bool :=
  pre.data.isPrefixOf s.data

/-- Modelled from the spec: `util.Await` (the Bounded-Wait Executor,
not under `src/`) retries an operation until it succeeds or the
timeout elapses, tolerating an operation that fails at first and
succeeds on a later retry within the window.  `op i` is the result the
operation would produce on its `i`-th try (the operation reads shared
state, so tries may differ); `fuel` is the number of tries that fit in
the timeout window; exhaustion yields the executor's timeout error. -/
def AwaitFrom {α : Type} (op : Nat → Except String α) : Nat → Nat → Except String α
  | _, 0 => Except.error "timed out"
  | i, fuel + 1 =>
    match op i with
    | Except.ok a => Except.ok a
    | Except.error _ => AwaitFrom op (i + 1) fuel

/-- Modelled from the spec: `util.Await` starting from the first try. -/
def Await {α : Type} (op : Nat → Except String α) (fuel : Nat) : Except String α :=
  AwaitFrom op 0 fuel

/-- `func findAvailablePlayer() (system.PlayerState, error)`:
`util.Await` around `system.FindAvailablePlayer`, bounded by
`findPlayerTimeout`.  `find i` is the registry's answer on try `i`. -/
def findAvailablePlayer (find : Nat → Except String PlayerState)
    (fuel : Nat) : Except String PlayerState :=
  Await find fuel

/-- `func (server *Server) withEmitter(execute func(emitter.OSCEmitter) error) error`:
`util.Await` (bounded by `findPlayerTimeout`) around `server.emitter()`,
then `execute` once on the emitter obtained.  `slots i` is the server
state the `i`-th retry attempt observes (the `managePlayers` loop may
rebind the slot between attempts). -/
def withEmitter (slots : Nat → Server) (fuel : Nat)
    (execute : OSCEmitter → Except String Unit) : Except String Unit :=
  match Await (fun i => (slots i).emitter) fuel with
  | Except.error err => Except.error err
  | Except.ok oe => execute oe

/-- `func (server *Server) shutdownPlayer() error`: `withEmitter` with
`emitter.EmitShutdownMessage(0)`; on error, return it (slot untouched);
on success, `unsetPlayer` and return nil.  Sequential model: no
concurrent loop rebinds the slot during the wait, so every retry
attempt observes the same server. -/
def shutdownPlayer (emitShutdownMessage : OSCEmitter → Nat → Except String Unit)
    (fuel : Nat) (server : Server) : Server × Except String Unit :=
  match withEmitter (fun _ => server) fuel (fun oe => emitShutdownMessage oe 0) with
  | Except.error err => (server, Except.error err)
  | Except.ok _ => (server.unsetPlayer, Except.ok ())

/-- The outcomes of the external calls one tick of `managePlayers`
would make: `fillPlayerPool` for `system.FillPlayerPool()`,
`findPlayerByID id` for `system.FindPlayerByID(id)`,
`findAvailablePlayerResult` for the (Await-bounded) outcome of
`findAvailablePlayer()`, and `emitPingMessage` for the (Await-bounded,
`pingTimeout`) outcome of `emitter.EmitPingMessage()`. -/
structure TickEnv where
  fillPlayerPool : Except String Unit
  findPlayerByID : String → Except String PlayerState
  findAvailablePlayerResult : Except String PlayerState
  emitPingMessage : Except String Unit

/-- The loop-local state of `managePlayers`: the server plus the two
timestamps `playerPoolLastFilled` and `lastPing`. -/
structure LoopState where
  server : Server
  playerPoolLastFilled : Int
  lastPing : Int
  deriving Repr, DecidableEq

/-- The state at the top of the loop: timestamps start at
`time.Unix(0, 0)`. -/
def LoopState.initial (server : Server) : LoopState :=
  ⟨server, 0, 0⟩

/-- Step 1 of a tick: fill the player pool.  When the fill interval has
elapsed, `system.FillPlayerPool()` is called; success and failure only
differ in logging, and `playerPoolLastFilled = now` runs either way. -/
def fillStep (env : TickEnv) (now : Int) (st : LoopState) : LoopState :=
  if now - st.playerPoolLastFilled > playerPoolFillInterval then
    match env.fillPlayerPool with
    | Except.ok _ => { st with playerPoolLastFilled := now }
    | Except.error _ => { st with playerPoolLastFilled := now }
  else st

/-- Step 2 of a tick: refresh the active player's state.  When a player
is bound, `system.FindPlayerByID(server.player.ID)` is consulted:
success overwrites the slot; an error whose message starts with
"player not found" clears it (`unsetPlayer`); any other error leaves
the state untouched. -/
def refreshStep (env : TickEnv) (st : LoopState) : LoopState :=
  if st.server.hasPlayer then
    match env.findPlayerByID st.server.player.ID with
    | Except.ok updatedState => { st with server := { player := updatedState } }
    | Except.error msg =>
      if hasPrefixStr msg "player not found" then
        { st with server := st.server.unsetPlayer }
      else st
  else st

/-- Step 3 of a tick: acquisition.  When no player is bound, the
outcome of `findAvailablePlayer()` either binds the found descriptor
or (on error) leaves the slot empty. -/
def acquireStep (env : TickEnv) (st : LoopState) : LoopState :=
  if !st.server.hasPlayer then
    match env.findAvailablePlayerResult with
    | Except.ok player => { st with server := { player := player } }
    | Except.error _ => st
  else st

/-- Step 4 of a tick: health check.  When a player is bound and the
ping interval has elapsed, the (Await-bounded) ping outcome either
keeps the player (ok) or clears the slot (error, including timeout);
`lastPing = now` runs either way. -/
def pingStep (env : TickEnv) (now : Int) (st : LoopState) : LoopState :=
  if st.server.hasPlayer && decide (now - st.lastPing > pingInterval) then
    match env.emitPingMessage with
    | Except.ok _ => { st with lastPing := now }
    | Except.error _ => { st with server := st.server.unsetPlayer, lastPing := now }
  else st

/-- One tick of the `managePlayers` loop: the four steps in source
order, each observing the state the previous step produced. -/
def tick (env : TickEnv) (now : Int) (st : LoopState) : LoopState :=
  pingStep env now (acquireStep env (refreshStep env (fillStep env now st)))

/-! ### Helper lemmas -/

theorem hasPlayer_unsetPlayer (server : Server) :
    server.unsetPlayer.hasPlayer = false := rfl

theorem emitter_of_empty (server : Server) (h : server.hasPlayer = false) :
    server.emitter = Except.error "no player process is available" := by
  simp [Server.emitter, h]

theorem emitter_of_bound (server : Server) (h : server.hasPlayer = true) :
    server.emitter = Except.ok ⟨server.player.Port⟩ := by
  simp [Server.emitter, h]

theorem fillStep_server (env : TickEnv) (now : Int) (st : LoopState) :
    (fillStep env now st).server = st.server := by
  unfold fillStep
  split
  · cases env.fillPlayerPool <;> rfl
  · rfl

theorem fillStep_lastPing (env : TickEnv) (now : Int) (st : LoopState) :
    (fillStep env now st).lastPing = st.lastPing := by
  unfold fillStep
  split
  · cases env.fillPlayerPool <;> rfl
  · rfl

theorem refreshStep_lastPing (env : TickEnv) (st : LoopState) :
    (refreshStep env st).lastPing = st.lastPing := by
  unfold refreshStep
  split
  · split
    · rfl
    · split <;> rfl
  · rfl

theorem refreshStep_lastFilled (env : TickEnv) (st : LoopState) :
    (refreshStep env st).playerPoolLastFilled = st.playerPoolLastFilled := by
  unfold refreshStep
  split
  · split
    · rfl
    · split <;> rfl
  · rfl

theorem acquireStep_lastPing (env : TickEnv) (st : LoopState) :
    (acquireStep env st).lastPing = st.lastPing := by
  unfold acquireStep
  split
  · split <;> rfl
  · rfl

theorem acquireStep_lastFilled (env : TickEnv) (st : LoopState) :
    (acquireStep env st).playerPoolLastFilled = st.playerPoolLastFilled := by
  unfold acquireStep
  split
  · split <;> rfl
  · rfl

theorem pingStep_lastFilled (env : TickEnv) (now : Int) (st : LoopState) :
    (pingStep env now st).playerPoolLastFilled = st.playerPoolLastFilled := by
  unfold pingStep
  split
  · cases env.emitPingMessage <;> rfl
  · rfl

theorem pingStep_of_not_elapsed (env : TickEnv) (now : Int) (st : LoopState)
    (h : ¬ now - st.lastPing > pingInterval) :
    pingStep env now st = st := by
  unfold pingStep
  split
  · next hc =>
      rw [Bool.and_eq_true] at hc
      exact absurd (of_decide_eq_true hc.2) h
  · rfl

theorem pingStep_active_error (env : TickEnv) (now : Int) (st : LoopState)
    (hp : st.server.hasPlayer = true) (ht : now - st.lastPing > pingInterval)
    (e : String) (he : env.emitPingMessage = Except.error e) :
    pingStep env now st = { st with server := st.server.unsetPlayer, lastPing := now } := by
  unfold pingStep
  rw [hp, he]
  simp [ht]

theorem pingStep_active_ok (env : TickEnv) (now : Int) (st : LoopState)
    (hp : st.server.hasPlayer = true) (ht : now - st.lastPing > pingInterval)
    (u : Unit) (hu : env.emitPingMessage = Except.ok u) :
    pingStep env now st = { st with lastPing := now } := by
  unfold pingStep
  rw [hp, hu]
  simp [ht]

theorem pingStep_of_no_player (env : TickEnv) (now : Int) (st : LoopState)
    (h : st.server.hasPlayer = false) :
    pingStep env now st = st := by
  unfold pingStep
  rw [h]
  simp

theorem AwaitFrom_ok {α : Type} (op : Nat → Except String α) (a : α) :
    ∀ (fuel start i : Nat), start ≤ i → i < start + fuel →
    (∀ j, start ≤ j → j < i → ∃ e, op j = Except.error e) →
    op i = Except.ok a →
    AwaitFrom op start fuel = Except.ok a := by
  intro fuel
  induction fuel with
  | zero =>
      intro start i h1 h2 _ _
      omega
  | succ n ih =>
      intro start i h1 h2 herr hok
      rcases Nat.eq_or_lt_of_le h1 with heq | hlt
      · subst heq
        unfold AwaitFrom
        rw [hok]
      · obtain ⟨e, he⟩ := herr start le_rfl hlt
        unfold AwaitFrom
        rw [he]
        exact ih (start + 1) i hlt (by omega) (fun j hj1 hj2 => herr j (by omega) hj2) hok

theorem AwaitFrom_timeout {α : Type} (op : Nat → Except String α) :
    ∀ (fuel start : Nat),
    (∀ j, start ≤ j → j < start + fuel → ∃ e, op j = Except.error e) →
    AwaitFrom op start fuel = Except.error "timed out" := by
  intro fuel
  induction fuel with
  | zero => intro start _; rfl
  | succ n ih =>
      intro start herr
      obtain ⟨e, he⟩ := herr start le_rfl (by omega)
      unfold AwaitFrom
      rw [he]
      exact ih (start + 1) (fun j hj1 hj2 => herr j (by omega) (by omega))

theorem Await_ok {α : Type} (op : Nat → Except String α) (a : α) (fuel i : Nat)
    (hi : i < fuel)
    (hbefore : ∀ j, j < i → ∃ e, op j = Except.error e)
    (hok : op i = Except.ok a) :
    Await op fuel = Except.ok a := by
  unfold Await
  exact AwaitFrom_ok op a fuel 0 i (Nat.zero_le i) (by omega)
    (fun j _ hj => hbefore j hj) hok

theorem Await_timeout {α : Type} (op : Nat → Except String α) (fuel : Nat)
    (hall : ∀ j, j < fuel → ∃ e, op j = Except.error e) :
    Await op fuel = Except.error "timed out" := by
  unfold Await
  exact AwaitFrom_timeout op fuel 0 (fun j _ hj => hall j (by omega))

theorem fillStep_lastFilled_of_active (env : TickEnv) (now : Int) (st : LoopState)
    (h : now - st.playerPoolLastFilled > playerPoolFillInterval) :
    (fillStep env now st).playerPoolLastFilled = now := by
  unfold fillStep
  rw [if_pos h]
  cases env.fillPlayerPool <;> rfl

theorem fillStep_of_not_elapsed (env : TickEnv) (now : Int) (st : LoopState)
    (h : ¬ now - st.playerPoolLastFilled > playerPoolFillInterval) :
    fillStep env now st = st := by
  unfold fillStep
  rw [if_neg h]

/-! ### Claim theorems -/

/-- C7: `hasPlayer()` is true iff the stored descriptor's `Port` is
non-zero; the zero-value initial state counts as empty, and a
descriptor with `Port = 0` counts as empty regardless of its `ID`. -/
theorem hasPlayer_iff_nonzero_port (server : Server) :
    (server.hasPlayer = true ↔ server.player.Port ≠ 0)
    ∧ (Server.mk PlayerState.empty).hasPlayer = false
    ∧ ∀ id, (Server.mk ⟨id, 0⟩).hasPlayer = false := by
  refine ⟨?_, rfl, fun id => rfl⟩
  simp [Server.hasPlayer]

/-- Witness for C7 at a concrete bound descriptor. -/
theorem hasPlayer_iff_nonzero_port_witness :
    (Server.mk ⟨"player-x", 5⟩).hasPlayer = true :=
  (hasPlayer_iff_nonzero_port ⟨⟨"player-x", 5⟩⟩).1.mpr (by decide)

/-- C8: `emitter()` fails exactly when `hasPlayer()` is false, with
message "no player process is available"; when a player is bound it
returns, error-free, an `OSCEmitter` on the bound descriptor's port. -/
theorem emitter_error_iff_no_player (server : Server) :
    (server.hasPlayer = false →
      server.emitter = Except.error "no player process is available")
    ∧ (server.hasPlayer = true →
      server.emitter = Except.ok ⟨server.player.Port⟩)
    ∧ ∀ e, server.emitter = Except.error e →
      server.hasPlayer = false ∧ e = "no player process is available" := by
  refine ⟨fun h => by simp [Server.emitter, h], fun h => by simp [Server.emitter, h], ?_⟩
  intro e he
  cases h : server.hasPlayer with
  | false =>
      refine ⟨rfl, ?_⟩
      rw [Server.emitter, h] at he
      simp at he
      exact he.symm
  | true =>
      rw [Server.emitter, h] at he
      simp at he

/-- Witness for C8 at a concrete bound server. -/
theorem emitter_error_iff_no_player_witness :
    (Server.mk ⟨"player-y", 7⟩).emitter = Except.ok ⟨7⟩ :=
  (emitter_error_iff_no_player ⟨⟨"player-y", 7⟩⟩).2.1 (by decide)

/-- C2: with a player bound, the refresh step is a three-way split on
`FindPlayerByID`: success overwrites the slot with the refreshed
descriptor (timestamps untouched); an error whose message starts with
"player not found" clears the slot; any other error leaves the whole
loop state unchanged. -/
theorem refresh_three_way_split (env : TickEnv) (st : LoopState)
    (hp : st.server.hasPlayer = true) :
    (∀ p, env.findPlayerByID st.server.player.ID = Except.ok p →
      refreshStep env st =
        { st with server := { player := p } })
    ∧ ∀ msg, env.findPlayerByID st.server.player.ID = Except.error msg →
      (hasPrefixStr msg "player not found" = true →
        refreshStep env st = { st with server := st.server.unsetPlayer })
      ∧ (hasPrefixStr msg "player not found" = false →
        refreshStep env st = st) := by
  constructor
  · intro p hres
    unfold refreshStep
    rw [hp, hres]
    simp
  · intro msg hres
    constructor
    · intro hpre
      unfold refreshStep
      rw [hp, hres]
      simp [hpre]
    · intro hpre
      unfold refreshStep
      rw [hp, hres]
      simp [hpre]

/-- Witness for C2: a bound player, refreshed with a "player not
found: p" error, ends with the slot cleared. -/
theorem refresh_three_way_split_witness :
    refreshStep
        ⟨Except.ok (), fun _ => Except.error "player not found: p", Except.error "n", Except.ok ()⟩
        ⟨⟨⟨"p", 7⟩⟩, 0, 0⟩
      = ⟨⟨PlayerState.empty⟩, 0, 0⟩ :=
  ((refresh_three_way_split
      ⟨Except.ok (), fun _ => Except.error "player not found: p", Except.error "n", Except.ok ()⟩
      ⟨⟨⟨"p", 7⟩⟩, 0, 0⟩ (by decide)).2
    "player not found: p" rfl).1 (by decide)

/-- C1: whenever the health-check step runs (player bound after the
first three steps, ping interval elapsed) and the Await-bounded ping
errors or times out, the slot is cleared before the tick ends, so
`hasPlayer()` is false immediately after the tick; this happens on the
very first failing ping, for every prior state — the loop keeps no
failure counter, so the declared `failedPingThreshold` of 3 is never
consulted. -/
theorem ping_failure_evicts_immediately (env : TickEnv) (now : Int) (st : LoopState)
    (hp : (acquireStep env (refreshStep env (fillStep env now st))).server.hasPlayer = true)
    (ht : now - st.lastPing > pingInterval)
    (he : ∃ msg, env.emitPingMessage = Except.error msg) :
    (tick env now st).server.hasPlayer = false ∧ failedPingThreshold = 3 := by
  obtain ⟨msg, hmsg⟩ := he
  refine ⟨?_, rfl⟩
  have hlp : (acquireStep env (refreshStep env (fillStep env now st))).lastPing
      = st.lastPing := by
    rw [acquireStep_lastPing, refreshStep_lastPing, fillStep_lastPing]
  unfold tick
  rw [pingStep_active_error env now _ hp (by rw [hlp]; exact ht) msg hmsg]
  exact hasPlayer_unsetPlayer
    (acquireStep env (refreshStep env (fillStep env now st))).server

/-- Witness for C1: a bound player whose ping fails is evicted within
the tick. -/
theorem ping_failure_evicts_immediately_witness :
    (tick ⟨Except.ok (), fun _ => Except.ok ⟨"p", 7⟩, Except.error "none", Except.error "unreachable"⟩
        2000 ⟨⟨⟨"p", 7⟩⟩, 0, 0⟩).server.hasPlayer = false
    ∧ failedPingThreshold = 3 :=
  ping_failure_evicts_immediately _ 2000 _ (by decide) (by decide) ⟨"unreachable", rfl⟩

/-- C9: both timestamps advance on attempt, not on success: a tick
whose pool fill runs and fails still sets `playerPoolLastFilled` to
the tick's start time, so the fill is not retried while the 15-second
interval has not elapsed again; and a tick whose ping runs and fails
still sets `lastPing` to the tick's start time (right after clearing
the slot), so no ping runs again while the 1-second interval has not
elapsed since the failed attempt. -/
theorem timestamps_advance_on_attempt (env env2 : TickEnv) (now now2 : Int) (st : LoopState) :
    (now - st.playerPoolLastFilled > playerPoolFillInterval →
      (∃ e, env.fillPlayerPool = Except.error e) →
      (tick env now st).playerPoolLastFilled = now
      ∧ (now2 - now ≤ playerPoolFillInterval →
          fillStep env2 now2 (tick env now st) = tick env now st))
    ∧ ((acquireStep env (refreshStep env (fillStep env now st))).server.hasPlayer = true →
      now - st.lastPing > pingInterval →
      (∃ e, env.emitPingMessage = Except.error e) →
      (tick env now st).lastPing = now
      ∧ (tick env now st).server.hasPlayer = false
      ∧ (now2 - now ≤ pingInterval →
          tick env2 now2 (tick env now st)
            = acquireStep env2 (refreshStep env2 (fillStep env2 now2 (tick env now st))))) := by
  constructor
  · intro hfa _he
    have hfill : (tick env now st).playerPoolLastFilled = now := by
      unfold tick
      rw [pingStep_lastFilled, acquireStep_lastFilled, refreshStep_lastFilled]
      exact fillStep_lastFilled_of_active env now st hfa
    refine ⟨hfill, fun hle => ?_⟩
    apply fillStep_of_not_elapsed
    rw [hfill]
    omega
  · intro hp ht he
    obtain ⟨e, he⟩ := he
    have hlp : (acquireStep env (refreshStep env (fillStep env now st))).lastPing
        = st.lastPing := by
      rw [acquireStep_lastPing, refreshStep_lastPing, fillStep_lastPing]
    have hkey : tick env now st
        = { acquireStep env (refreshStep env (fillStep env now st)) with
            server := (acquireStep env (refreshStep env (fillStep env now st))).server.unsetPlayer,
            lastPing := now } := by
      unfold tick
      exact pingStep_active_error env now _ hp (by rw [hlp]; exact ht) e he
    have hping : (tick env now st).lastPing = now := by rw [hkey]
    refine ⟨hping, ?_, fun hle => ?_⟩
    · rw [hkey]
      exact hasPlayer_unsetPlayer
        (acquireStep env (refreshStep env (fillStep env now st))).server
    · apply pingStep_of_not_elapsed
      rw [acquireStep_lastPing, refreshStep_lastPing, fillStep_lastPing, hping]
      omega

/-- Witness for C9: a tick at 20000ms with a failing fill and a
failing ping sets both timestamps to 20000. -/
theorem timestamps_advance_on_attempt_witness :
    (tick ⟨Except.error "fill failed", fun _ => Except.ok ⟨"p", 7⟩, Except.error "none",
        Except.error "unreachable"⟩ 20000 ⟨⟨⟨"p", 7⟩⟩, 0, 0⟩).playerPoolLastFilled = 20000
    ∧ (tick ⟨Except.error "fill failed", fun _ => Except.ok ⟨"p", 7⟩, Except.error "none",
        Except.error "unreachable"⟩ 20000 ⟨⟨⟨"p", 7⟩⟩, 0, 0⟩).lastPing = 20000 :=
  ⟨((timestamps_advance_on_attempt _
        ⟨Except.ok (), fun _ => Except.ok ⟨"p", 7⟩, Except.error "none", Except.ok ()⟩
        20000 20500 _).1 (by decide) ⟨"fill failed", rfl⟩).1,
   ((timestamps_advance_on_attempt _
        ⟨Except.ok (), fun _ => Except.ok ⟨"p", 7⟩, Except.error "none", Except.ok ()⟩
        20000 20500 _).2 (by decide) (by decide) ⟨"unreachable", rfl⟩).1⟩



/-- C5: `withEmitter` retries obtaining an emitter within the Await
window: if the slot holds a worker (`Port` non-zero) at some attempt
before the window closes — the first such attempt being `i`, so in
particular a worker bound only after the call started — `execute` runs
with an `OSCEmitter` on that worker's port and its result is returned;
if the slot stays empty for the whole window, the timeout error is
returned and `execute` never runs. -/
theorem withEmitter_retries_within_window (slots : Nat → Server) (fuel : Nat)
    (execute : OSCEmitter → Except String Unit) :
    (∀ i, i < fuel → (∀ j, j < i → (slots j).hasPlayer = false) →
      (slots i).hasPlayer = true →
      withEmitter slots fuel execute = execute ⟨(slots i).player.Port⟩)
    ∧ ((∀ i, i < fuel → (slots i).hasPlayer = false) →
      withEmitter slots fuel execute = Except.error "timed out") := by
  constructor
  · intro i hi hbefore hp
    have hawait : Await (fun k => (slots k).emitter) fuel
        = Except.ok ⟨(slots i).player.Port⟩ :=
      Await_ok _ _ fuel i hi
        (fun j hj => ⟨"no player process is available", emitter_of_empty _ (hbefore j hj)⟩)
        (emitter_of_bound _ hp)
    unfold withEmitter
    rw [hawait]
  · intro hall
    have hawait : Await (fun k => (slots k).emitter) fuel
        = Except.error "timed out" :=
      Await_timeout _ fuel
        (fun j hj => ⟨"no player process is available", emitter_of_empty _ (hall j hj)⟩)
    unfold withEmitter
    rw [hawait]

/-- Witness for C5: the slot is empty on attempts 0 and 1 and bound to
port 9 from attempt 2 on; `withEmitter` runs `execute` on port 9. -/
theorem withEmitter_retries_within_window_witness :
    withEmitter (fun i => if i < 2 then ⟨PlayerState.empty⟩ else ⟨⟨"p", 9⟩⟩) 5
      (fun oe => if oe.Port == 9 then Except.ok () else Except.error "wrong port")
      = Except.ok () :=
  ((withEmitter_retries_within_window
      (fun i => if i < 2 then ⟨PlayerState.empty⟩ else ⟨⟨"p", 9⟩⟩) 5
      (fun oe => if oe.Port == 9 then Except.ok () else Except.error "wrong port")).1
    2 (by decide) (by decide) (by decide)).trans rfl

/-- C4: `shutdownPlayer` returning success leaves `hasPlayer()` false;
and when no worker is bound, so no emitter becomes available within
the discovery window, it returns the unavailability (timeout) failure
with `hasPlayer()` false on return as well. -/
theorem shutdown_postcondition_no_player
    (emitShutdownMessage : OSCEmitter → Nat → Except String Unit)
    (fuel : Nat) (server : Server) :
    ((shutdownPlayer emitShutdownMessage fuel server).2 = Except.ok () →
      ((shutdownPlayer emitShutdownMessage fuel server).1).hasPlayer = false)
    ∧ (server.hasPlayer = false →
      ((shutdownPlayer emitShutdownMessage fuel server).1).hasPlayer = false
      ∧ (shutdownPlayer emitShutdownMessage fuel server).2 = Except.error "timed out") := by
  constructor
  · intro hok
    cases hwe : withEmitter (fun _ => server) fuel (fun oe => emitShutdownMessage oe 0) with
    | error e =>
        exfalso
        unfold shutdownPlayer at hok
        rw [hwe] at hok
        simp at hok
    | ok u =>
        unfold shutdownPlayer
        rw [hwe]
        exact hasPlayer_unsetPlayer server
  · intro hnp
    have hwe : withEmitter (fun _ => server) fuel (fun oe => emitShutdownMessage oe 0)
        = Except.error "timed out" := by
      unfold withEmitter
      rw [Await_timeout _ fuel
        (fun j _ => ⟨"no player process is available", emitter_of_empty server hnp⟩)]
    constructor
    · unfold shutdownPlayer
      rw [hwe]
      exact hnp
    · unfold shutdownPlayer
      rw [hwe]

/-- Witness for C4: with an empty slot, `shutdownPlayer` fails with
the timeout error and leaves `hasPlayer()` false. -/
theorem shutdown_postcondition_no_player_witness :
    ((shutdownPlayer (fun _ _ => Except.ok ()) 3 ⟨PlayerState.empty⟩).1).hasPlayer = false
    ∧ (shutdownPlayer (fun _ _ => Except.ok ()) 3 ⟨PlayerState.empty⟩).2
        = Except.error "timed out" :=
  (shutdown_postcondition_no_player (fun _ _ => Except.ok ()) 3 ⟨PlayerState.empty⟩).2
    (by decide)

/-- C10: with a worker bound, a failing shutdown send makes
`shutdownPlayer` propagate that error and leave the slot unchanged —
the failing worker is still bound on return. -/
theorem shutdown_send_error_keeps_player
    (emitShutdownMessage : OSCEmitter → Nat → Except String Unit)
    (fuel : Nat) (server : Server) (e : String)
    (hp : server.hasPlayer = true) (hf : 0 < fuel)
    (hsend : emitShutdownMessage ⟨server.player.Port⟩ 0 = Except.error e) :
    shutdownPlayer emitShutdownMessage fuel server = (server, Except.error e)
    ∧ ((shutdownPlayer emitShutdownMessage fuel server).1).hasPlayer = true := by
  have hwe : withEmitter (fun _ => server) fuel (fun oe => emitShutdownMessage oe 0)
      = Except.error e := by
    unfold withEmitter
    rw [Await_ok _ ⟨server.player.Port⟩ fuel 0 hf
      (fun j hj => absurd hj (Nat.not_lt_zero j)) (emitter_of_bound server hp)]
    exact hsend
  have hres : shutdownPlayer emitShutdownMessage fuel server = (server, Except.error e) := by
    unfold shutdownPlayer
    rw [hwe]
  exact ⟨hres, by rw [hres]; exact hp⟩

/-- Witness for C10 at a concrete bound server and failing send. -/
theorem shutdown_send_error_keeps_player_witness :
    shutdownPlayer (fun _ _ => Except.error "conn reset") 1 ⟨⟨"p1", 7⟩⟩
      = (⟨⟨"p1", 7⟩⟩, Except.error "conn reset")
    ∧ ((shutdownPlayer (fun _ _ => Except.error "conn reset") 1 ⟨⟨"p1", 7⟩⟩).1).hasPlayer
      = true :=
  shutdown_send_error_keeps_player (fun _ _ => Except.error "conn reset") 1
    ⟨⟨"p1", 7⟩⟩ "conn reset" (by decide) (by decide) rfl

/-- C3 counterexample: with a worker bound on port 7 and a shutdown
send that reports an error, `shutdownPlayer` obtains the channel,
sends, and returns the error with the slot still bound — so the slot
is NOT cleared regardless of the send's outcome. -/
theorem shutdown_clear_not_unconditional :
    (shutdownPlayer (fun _ _ => Except.error "send failed") 1 ⟨⟨"p1", 7⟩⟩).2
      = Except.error "send failed"
    ∧ ((shutdownPlayer (fun _ _ => Except.error "send failed") 1 ⟨⟨"p1", 7⟩⟩).1).hasPlayer
      = true :=
  ⟨rfl, rfl⟩

/-- C3 (amended): whenever `shutdownPlayer` obtains a channel to the
bound worker within the window and sends the shutdown message, it
clears the slot exactly when the send reports success: on a successful
send the slot is empty on return; on a send error the error is
propagated and the slot is left unchanged. -/
theorem shutdown_clears_exactly_on_send_success
    (emitShutdownMessage : OSCEmitter → Nat → Except String Unit)
    (fuel : Nat) (server : Server)
    (hp : server.hasPlayer = true) (hf : 0 < fuel) :
    (emitShutdownMessage ⟨server.player.Port⟩ 0 = Except.ok () →
      shutdownPlayer emitShutdownMessage fuel server = (server.unsetPlayer, Except.ok ())
      ∧ ((shutdownPlayer emitShutdownMessage fuel server).1).hasPlayer = false)
    ∧ ∀ e, emitShutdownMessage ⟨server.player.Port⟩ 0 = Except.error e →
      shutdownPlayer emitShutdownMessage fuel server = (server, Except.error e) := by
  have hob : Await (fun k => ((fun _ => server) k : Server).emitter) fuel
      = Except.ok ⟨server.player.Port⟩ :=
    Await_ok _ ⟨server.player.Port⟩ fuel 0 hf
      (fun j hj => absurd hj (Nat.not_lt_zero j)) (emitter_of_bound server hp)
  constructor
  · intro hsend
    have hwe : withEmitter (fun _ => server) fuel (fun oe => emitShutdownMessage oe 0)
        = Except.ok () := by
      unfold withEmitter
      rw [hob]
      exact hsend
    have hres : shutdownPlayer emitShutdownMessage fuel server
        = (server.unsetPlayer, Except.ok ()) := by
      unfold shutdownPlayer
      rw [hwe]
    exact ⟨hres, by rw [hres]; exact hasPlayer_unsetPlayer server⟩
  · intro e hsend
    have hwe : withEmitter (fun _ => server) fuel (fun oe => emitShutdownMessage oe 0)
        = Except.error e := by
      unfold withEmitter
      rw [hob]
      exact hsend
    unfold shutdownPlayer
    rw [hwe]

/-- Witness for the amended C3: a successful send clears the slot. -/
theorem shutdown_clears_exactly_on_send_success_witness :
    shutdownPlayer (fun _ _ => Except.ok ()) 1 ⟨⟨"p1", 7⟩⟩
      = (⟨PlayerState.empty⟩, Except.ok ())
    ∧ ((shutdownPlayer (fun _ _ => Except.ok ()) 1 ⟨⟨"p1", 7⟩⟩).1).hasPlayer = false :=
  (shutdown_clears_exactly_on_send_success (fun _ _ => Except.ok ()) 1 ⟨⟨"p1", 7⟩⟩
    (by decide) (by decide)).1 rfl

/-- Concrete tick inputs for the C6 counterexample: empty slot,
discovery finds a live player on port 3, but the ping in the same tick
fails. -/
def envC6 : TickEnv :=
  ⟨Except.ok (), fun _ => Except.error "x", Except.ok ⟨"p2", 3⟩, Except.error "unreachable"⟩

/-- Loop state for the C6 counterexample: empty slot, ping due. -/
def stC6 : LoopState := ⟨⟨PlayerState.empty⟩, 100, 0⟩

/-- C6 counterexample: the slot is empty when acquisition runs and
discovery succeeds with descriptor ("p2", 3), which is bound by the
acquisition step — yet the tick does NOT end with `hasPlayer()` true,
because the same tick's health check pings the fresh player and fails,
evicting it again. -/
theorem acquisition_not_tick_end_state :
    (refreshStep envC6 (fillStep envC6 2000 stC6)).server.hasPlayer = false
    ∧ envC6.findAvailablePlayerResult = Except.ok ⟨"p2", 3⟩
    ∧ (acquireStep envC6 (refreshStep envC6 (fillStep envC6 2000 stC6))).server.player
        = ⟨"p2", 3⟩
    ∧ (tick envC6 2000 stC6).server.hasPlayer = false :=
  ⟨rfl, rfl, rfl, rfl⟩

/-- C6 (amended): if the slot is empty when the acquisition step runs
— including when the refresh step cleared it earlier in the same tick
— a successful `findAvailablePlayer` outcome binds exactly the
returned descriptor (never the evicted one); provided its `Port` is
non-zero, the tick then ends with that descriptor bound and
`hasPlayer()` true unless the same tick's health check runs and its
ping fails; on acquisition failure the slot is left empty at tick
end. -/
theorem acquisition_binds_fresh_descriptor (env : TickEnv) (now : Int) (st : LoopState)
    (h0 : (refreshStep env (fillStep env now st)).server.hasPlayer = false) :
    (∀ p, env.findAvailablePlayerResult = Except.ok p →
      (acquireStep env (refreshStep env (fillStep env now st))).server.player = p
      ∧ (p.Port ≠ 0 →
        (now - st.lastPing ≤ pingInterval ∨ ∃ u, env.emitPingMessage = Except.ok u) →
        (tick env now st).server.player = p
        ∧ (tick env now st).server.hasPlayer = true))
    ∧ ∀ e, env.findAvailablePlayerResult = Except.error e →
      (tick env now st).server.hasPlayer = false := by
  constructor
  · intro p hres
    have hacq : acquireStep env (refreshStep env (fillStep env now st))
        = { refreshStep env (fillStep env now st) with server := { player := p } } := by
      unfold acquireStep
      rw [h0, hres]
      rfl
    constructor
    · rw [hacq]
    · intro hPort hping
      have hhp : (acquireStep env (refreshStep env (fillStep env now st))).server.hasPlayer
          = true := by
        rw [hacq]
        simp [Server.hasPlayer, hPort]
      have hlp : (acquireStep env (refreshStep env (fillStep env now st))).lastPing
          = st.lastPing := by
        rw [acquireStep_lastPing, refreshStep_lastPing, fillStep_lastPing]
      by_cases hel : now - st.lastPing > pingInterval
      · rcases hping with htime | ⟨u, hu⟩
        · exact absurd hel (not_lt.mpr htime)
        · have hkey : tick env now st
              = { acquireStep env (refreshStep env (fillStep env now st)) with
                  lastPing := now } := by
            unfold tick
            exact pingStep_active_ok env now _ hhp (by rw [hlp]; exact hel) u hu
          rw [hkey, hacq]
          exact ⟨rfl, by simp [Server.hasPlayer, hPort]⟩
      · have hkey : tick env now st
            = acquireStep env (refreshStep env (fillStep env now st)) := by
          unfold tick
          exact pingStep_of_not_elapsed env now _ (by rw [hlp]; exact hel)
        rw [hkey, hacq]
        exact ⟨rfl, by simp [Server.hasPlayer, hPort]⟩
  · intro e hres
    have hacq : acquireStep env (refreshStep env (fillStep env now st))
        = refreshStep env (fillStep env now st) := by
      unfold acquireStep
      rw [h0, hres]
      rfl
    have hhp : (acquireStep env (refreshStep env (fillStep env now st))).server.hasPlayer
        = false := by
      rw [hacq]
      exact h0
    unfold tick
    rw [pingStep_of_no_player env now _ hhp, hacq]
    exact h0

/-- Witness for the amended C6: a tick that evicts ("p1", 7) via a
"player not found" refresh error and discovers ("p2", 4), whose ping
succeeds, ends bound to the new descriptor. -/
theorem acquisition_binds_fresh_descriptor_witness :
    (tick ⟨Except.ok (), fun _ => Except.error "player not found: p1", Except.ok ⟨"p2", 4⟩,
        Except.ok ()⟩ 2000 ⟨⟨⟨"p1", 7⟩⟩, 0, 0⟩).server.player = ⟨"p2", 4⟩
    ∧ (tick ⟨Except.ok (), fun _ => Except.error "player not found: p1", Except.ok ⟨"p2", 4⟩,
        Except.ok ()⟩ 2000 ⟨⟨⟨"p1", 7⟩⟩, 0, 0⟩).server.hasPlayer = true :=
  ((acquisition_binds_fresh_descriptor
      ⟨Except.ok (), fun _ => Except.error "player not found: p1", Except.ok ⟨"p2", 4⟩,
        Except.ok ()⟩ 2000 ⟨⟨⟨"p1", 7⟩⟩, 0, 0⟩ (by decide)).1
    ⟨"p2", 4⟩ rfl).2 (by decide) (Or.inr ⟨(), rfl⟩)

end PlayerManagement
